import Mathlib

/-!
Verification development for the `cursor-guardrails` repository: a shallow
embedding in Lean 4 of the repository's standards-checking logic
(`scripts/check_dockerfile.py`, `scripts/check_standards.py`,
`scripts/validators/compose_validator.py`,
`scripts/validators/container_validator.py`,
`scripts/validators/poetry_validator.py`), together with theorems settling
the spec claims about it.

Python strings are modelled as `List Char`; Python machine behaviour that can
raise (tuple unpacking, indexing, iterating a non-iterable) is modelled with
`Except`/`Option`.  External libraries (`black`, `ast`, `tomli`, `yaml`) are
out of repository scope: calls into them are modelled as function parameters
or as already-parsed structured values, as the spec's §1 prescribes for the
core ("consumes already-parsed configuration objects and raw file text").
-/

set_option maxRecDepth 10000

namespace Guardrails

/-- Convert a Lean string literal to the `List Char` representation used for
Python strings throughout this development. -/
def pystr (s : String) : List Char := s.data

/-- Python considers these characters whitespace for `str.strip` / `str.split()`
(ASCII subset, which is all that the checked artifacts contain). -/
def pyWs (c : Char) : Bool :=
  c = ' ' || c = '\t' || c = '\n' || c = '\r' || c = '\x0b' || c = '\x0c'

/-- Python `s.lstrip()`. -/
def pyLStrip (s : List Char) : List Char := s.dropWhile pyWs

/-- Python `s.rstrip()`. -/
def pyRStrip (s : List Char) : List Char := (s.reverse.dropWhile pyWs).reverse

/-- Python `s.strip()`. -/
def pyStrip (s : List Char) : List Char := pyRStrip (pyLStrip s)

/-- Python `s.rstrip("\\")`: drop every trailing backslash. -/
def pyRStripBackslash (s : List Char) : List Char :=
  (s.reverse.dropWhile (fun c => c = '\\')).reverse

/-- Python `s.endswith("\\")`. -/
def endsWithBackslash (s : List Char) : Bool := s.getLast? = some '\\'

/-- Python `s.startswith(p)`. -/
def pyStartsWith (s p : List Char) : Bool := p.isPrefixOf s

/-- Helper for `pyContains`: does `p` occur starting at some position of `s`? -/
def pyContainsAux : List Char → List Char → Bool
  | p, [] => p.isEmpty
  | p, c :: rest => p.isPrefixOf (c :: rest) || pyContainsAux p rest

/-- Python `p in s` (substring containment). -/
def pyContains (s p : List Char) : Bool := pyContainsAux p s

/-- Accumulator loop for `pySplitWs`: `acc` holds the reversed current token. -/
def pySplitWsGo : List Char → List Char → List (List Char)
  | acc, [] => if acc.isEmpty then [] else [acc.reverse]
  | acc, c :: rest =>
    if pyWs c then
      if acc.isEmpty then pySplitWsGo [] rest
      else acc.reverse :: pySplitWsGo [] rest
    else pySplitWsGo (c :: acc) rest

/-- Python `s.split()` (split on whitespace runs, dropping empty pieces). -/
def pySplitWs (s : List Char) : List (List Char) := pySplitWsGo [] s

/-- Python `s.split(sep)[0]` for a one-character separator: everything before
the first occurrence of `sep` (`str.split` with an explicit separator always
returns a non-empty list, so the `[0]` indexing never fails). -/
def pySplitFirstAt (sep : Char) (s : List Char) : List Char :=
  s.takeWhile (fun c => c ≠ sep)

/-- Python `s.lower()` (ASCII case folding, which covers the checked names). -/
def pyLower (s : List Char) : List Char := s.map Char.toLower

/-- Python `" ".join(parts)`. -/
def joinSpace (parts : List (List Char)) : List Char :=
  List.intercalate [' '] parts

/-- Python `content.split("\n")`. -/
def splitNl : List Char → List (List Char)
  | [] => [[]]
  | c :: cs =>
    match splitNl cs with
    | [] => [[c]]
    | l :: ls => if c = '\n' then [] :: l :: ls else (c :: l) :: ls

/-! ## `scripts/check_dockerfile.py` -/

/-- One parsed Dockerfile directive: `(instruction, argument)`, as produced by
`parse_dockerfile`. -/
abbrev Instr := List Char × List Char

/-- Python `line.split(None, 1)` (split on the first whitespace run, keeping
the remainder intact, after discarding leading whitespace; at most two
pieces). -/
def pySplitNone1 (s : List Char) : List (List Char) :=
  let s1 := s.dropWhile pyWs
  if s1.isEmpty then []
  else
    let tok := s1.takeWhile (fun c => !pyWs c)
    let rest := (s1.dropWhile (fun c => !pyWs c)).dropWhile pyWs
    if rest.isEmpty then [tok] else [tok, rest]

/-- The tuple unpacking `instruction, arg = line.split(None, 1)` in
`parse_dockerfile` (lines 32 and 44): succeeds only when the split yields
exactly two pieces; otherwise Python raises `ValueError`. -/
def unpackSplit2 (line : List Char) : Option Instr :=
  match pySplitNone1 line with
  | [i, a] => some (i, a)
  | _ => none

/-- The `ValueError` message raised by a failed two-element tuple unpacking. -/
def valueErrorMsg : List Char :=
  pystr "ValueError: not enough values to unpack (expected 2, got 1)"

/-- The loop body state of `parse_dockerfile`: the loop over
`content.split("\n")`, carrying `current_instruction` and `current_args`
(lines 25-45 of `check_dockerfile.py`), rendered as structural recursion over
the remaining lines.  The produced instruction list is in source order. -/
def parseLoop : List (List Char) → Option (List Char) → List (List Char) →
    Except (List Char) (List Instr)
  | [], _, _ => .ok []
  | raw :: rest, cur, curArgs =>
    let line := pyStrip raw
    if line.isEmpty || line.head? = some '#' then
      parseLoop rest cur curArgs
    else if endsWithBackslash line then
      match cur with
      | none =>
        match unpackSplit2 line with
        | none => .error valueErrorMsg
        | some (i, a) => parseLoop rest (some i) [pyStrip (pyRStripBackslash a)]
      | some c =>
        parseLoop rest (some c) (curArgs ++ [pyStrip (pyRStripBackslash line)])
    else
      match cur with
      | some c =>
        (parseLoop rest none []).map
          (fun r => (c, joinSpace (curArgs ++ [line])) :: r)
      | none =>
        match unpackSplit2 line with
        | none => .error valueErrorMsg
        | some (i, a) => (parseLoop rest cur curArgs).map (fun r => (i, a) :: r)

/-- `parse_dockerfile(content)` (lines 19-47): parse Dockerfile text into the
ordered list of `(instruction, argument)` pairs; `Except.error` models an
uncaught Python exception escaping the function. -/
def parse_dockerfile (content : List Char) : Except (List Char) (List Instr) :=
  parseLoop (splitNl content) none []

/-- `check_base_image(instructions)` (lines 50-62). -/
def check_base_image (instructions : List Instr) : List (List Char) :=
  match instructions with
  | [] => [pystr "Dockerfile must start with FROM instruction"]
  | (i, a) :: _ =>
    if i ≠ pystr "FROM" then
      [pystr "Dockerfile must start with FROM instruction"]
    else if !pyStartsWith a (pystr "python:3.11") then
      [pystr "Base image must be python:3.11"]
    else []

/-- The fixed list of required environment variables of
`check_environment_variables` (lines 68-77), in source listing order (the
source holds them in a Python `set`; only membership is ever used). -/
def requiredEnvVars : List (List Char) :=
  [pystr "PYTHONUNBUFFERED",
   pystr "PYTHONDONTWRITEBYTECODE",
   pystr "POETRY_VERSION",
   pystr "POETRY_HOME",
   pystr "POETRY_VIRTUALENVS_IN_PROJECT",
   pystr "POETRY_NO_INTERACTION",
   pystr "PYSETUP_PATH",
   pystr "VENV_PATH"]

/-- The key extracted from one `ENV` argument (lines 82-86):
`args.split("=")[0].strip()` when `"=" in args`, else `args.split()[0].strip()`.
`none` models the `IndexError` raised by `args.split()[0]` on an argument with
no non-whitespace characters. -/
def envKeyOf (args : List Char) : Option (List Char) :=
  if args.contains '=' then
    some (pyStrip (pySplitFirstAt '=' args))
  else
    (pySplitWs args).head?.map pyStrip

/-- The set `found_env_vars` built by the loop of lines 79-87, as the list of
keys of the `ENV` instructions (only membership is used).  `Except.error`
models the `IndexError` path of `envKeyOf`. -/
def foundEnvKeys : List Instr → Except (List Char) (List (List Char))
  | [] => .ok []
  | (i, args) :: rest =>
    if i = pystr "ENV" then
      match envKeyOf args with
      | none => .error (pystr "IndexError: list index out of range")
      | some k => (foundEnvKeys rest).map (fun ks => k :: ks)
    else foundEnvKeys rest

/-- The error message of line 91. -/
def missingEnvMsg (v : List Char) : List Char :=
  pystr "Missing required environment variable: " ++ v

/-- `check_environment_variables(instructions)` (lines 65-93). -/
def check_environment_variables (instructions : List Instr) :
    Except (List Char) (List (List Char)) :=
  (foundEnvKeys instructions).map (fun found =>
    (requiredEnvVars.filter (fun v => !found.contains v)).map missingEnvMsg)

/-- The Poetry installer command searched for by `check_poetry_installation`
(line 102). -/
def poetryInstallCmd : List Char :=
  pystr "curl -sSL https://install.python-poetry.org"

/-- `check_poetry_installation(instructions)` (lines 96-109). -/
def check_poetry_installation (instructions : List Instr) : List (List Char) :=
  if instructions.any (fun p =>
      p.1 = pystr "RUN" && pyContains p.2 poetryInstallCmd) then []
  else [pystr "Poetry installation command not found"]

/-- `check_dependencies_installation(instructions)` (lines 112-129). -/
def check_dependencies_installation (instructions : List Instr) :
    List (List Char) :=
  let copyFound := instructions.any (fun p =>
    p.1 = pystr "COPY" && pyContains p.2 (pystr "pyproject.toml")
      && pyContains p.2 (pystr "poetry.lock"))
  let poetryFound := instructions.any (fun p =>
    p.1 = pystr "RUN" && pyContains p.2 (pystr "poetry install"))
  (if !copyFound then [pystr "Must copy pyproject.toml and poetry.lock files"]
   else []) ++
  (if !poetryFound then [pystr "Must install dependencies using poetry install"]
   else [])

/-- `check_healthcheck(instructions)` (lines 132-147): the loop inspects only
the first `HEALTHCHECK` instruction (it `break`s), rendered with `find?`. -/
def check_healthcheck (instructions : List Instr) : List (List Char) :=
  match instructions.find? (fun p => p.1 = pystr "HEALTHCHECK") with
  | some p =>
    if !pyContains p.2 (pystr "--interval") || !pyContains p.2 (pystr "--timeout")
        || !pyContains p.2 (pystr "--retries") then
      [pystr "Healthcheck must specify interval, timeout, and retries"]
    else []
  | none => [pystr "Healthcheck configuration not found"]

/-- The required label keys of `check_labels` (line 153), in source listing
order (a Python `set` in the source; only membership is used). -/
def requiredLabels : List (List Char) :=
  [pystr "maintainer", pystr "version", pystr "description"]

/-- The keys contributed by one `LABEL` argument (lines 158-160): each
whitespace token containing `=` contributes `label.split("=")[0].strip()`. -/
def labelKeysOf (args : List Char) : List (List Char) :=
  (pySplitWs args).filterMap (fun tok =>
    if tok.contains '=' then some (pyStrip (pySplitFirstAt '=' tok)) else none)

/-- The set `found_labels` of lines 154-160, as a list (only membership is
used). -/
def foundLabelKeys (instructions : List Instr) : List (List Char) :=
  instructions.foldr (fun p acc =>
    if p.1 = pystr "LABEL" then labelKeysOf p.2 ++ acc else acc) []

/-- The error message of line 164. -/
def missingLabelMsg (l : List Char) : List Char :=
  pystr "Missing required label: " ++ l

/-- `check_labels(instructions)` (lines 150-166). -/
def check_labels (instructions : List Instr) : List (List Char) :=
  (requiredLabels.filter (fun l => !(foundLabelKeys instructions).contains l)).map
    missingLabelMsg

/-! ## `scripts/validators/compose_validator.py`

The compose file is consumed already YAML-deserialized (spec §1 and §6: the
core "consumes already-parsed configuration objects").  The dictionary shape
a service configuration can take is modelled by the inductives below; the
`isinstance` tests of the source become constructor matches. -/

/-- One entry of a `volumes:` list: a YAML string or some non-string value. -/
inductive VolumeEntry where
  | str (s : List Char)
  | nonStr
deriving DecidableEq

/-- The `volumes` value of a service: a YAML list or some non-list value. -/
inductive VolumesVal where
  | list (vs : List VolumeEntry)
  | nonList
deriving DecidableEq

/-- One entry of an `environment:` list form. -/
inductive EnvEntry where
  | str (s : List Char)
  | nonStr
deriving DecidableEq

/-- The `environment` value of a service: list form, dict form (only the keys
are inspected), or any other value. -/
inductive EnvVal where
  | list (es : List EnvEntry)
  | dict (keys : List (List Char))
  | other
deriving DecidableEq

/-- The `args` value of a `build` dict: a dict (only the keys are inspected)
or any other value. -/
inductive ArgsVal where
  | dict (keys : List (List Char))
  | nonDict
deriving DecidableEq

/-- The `build` value of a service: a dict with optional `context`,
`dockerfile` and `args` keys, or a non-dict value (e.g. a plain string). -/
inductive BuildVal where
  | dict (context : Option (List Char)) (dockerfile : Option (List Char))
      (args : Option ArgsVal)
  | nonDict
deriving DecidableEq

/-- A service configuration mapping, restricted to the keys
`validate_compose_service` reads (`build`, `volumes`, `environment`); a `none`
field models the key being absent. -/
structure ServiceConfig where
  build : Option BuildVal
  volumes : Option VolumesVal
  environment : Option EnvVal
deriving DecidableEq

/-- The keyword list of `is_python_service` (lines 104-108). -/
def pythonServiceIndicators : List (List Char) :=
  [pystr "python", pystr "django", pystr "flask", pystr "fastapi",
   pystr "celery", pystr "worker", pystr "api", pystr "service",
   pystr "app", pystr "backend", pystr "foundation", pystr "agent",
   pystr "model", pystr "processor", pystr "analyzer"]

/-- `is_python_service(service_name)` (lines 99-109): case-insensitive
substring match of any indicator against the service name. -/
def is_python_service (service_name : List Char) : Bool :=
  pythonServiceIndicators.any (fun ind => pyContains (pyLower service_name) ind)

/-- The build-context/args block of `validate_compose_service`
(lines 37-70). -/
def composeBuildErrors (service_name : List Char) (cfg : ServiceConfig) :
    List (List Char) :=
  match cfg.build with
  | some (.dict context dockerfile args) =>
    (match context with
     | some ctx =>
       if service_name = pystr "dev" then
         (if !(ctx = pystr "./containers/dev-environment" || ctx = pystr "."
               || ctx = pystr "../..") then
            [pystr "Dev container build context should be './containers/dev-environment', '.' or '../..'"]
          else []) ++
         (match dockerfile with
          | some df =>
            if !(df = pystr "Dockerfile"
                 || df = pystr "containers/dev-environment/Dockerfile") then
              [pystr "Dev container dockerfile should be 'Dockerfile' or 'containers/dev-environment/Dockerfile'"]
            else []
          | none => [])
       else
         (if !(ctx = pystr "./containers/" ++ service_name || ctx = pystr ".") then
            [pystr "Build context should be './containers/" ++ service_name
              ++ pystr "' or '.'"]
          else []) ++
         (if ctx = pystr "./containers/" ++ service_name then
            match dockerfile with
            | some df =>
              if df ≠ pystr "Dockerfile" then
                [pystr "When using component context, dockerfile should be 'Dockerfile'"]
              else []
            | none => []
          else []) ++
         (if ctx = pystr "." then
            match dockerfile with
            | some df =>
              if !pyStartsWith df (pystr "containers/" ++ service_name ++ pystr "/") then
                [pystr "When using root context, dockerfile should include component path"]
              else []
            | none => []
          else [])
     | none => []) ++
    (match args with
     | some (.dict keys) =>
       let poetryArgs := keys.filter (fun a => pyContains (pyLower a) (pystr "poetry"))
       if poetryArgs.isEmpty && is_python_service service_name then
         [pystr "Python service " ++ service_name
           ++ pystr " should include Poetry-related build args"]
       else []
     | _ => [])
  | _ => []

/-- The volumes block of `validate_compose_service` (lines 73-82). -/
def composeVolumeErrors (service_name : List Char) (cfg : ServiceConfig) :
    List (List Char) :=
  match cfg.volumes with
  | some (.list vs) =>
    let poetryVolumeFound := vs.any (fun v =>
      match v with
      | .str s => pyContains s (pystr "pyproject.toml")
          || pyContains s (pystr "poetry.lock")
      | .nonStr => false)
    if !poetryVolumeFound && is_python_service service_name then
      [pystr "Python service " ++ service_name
         ++ pystr " should mount pyproject.toml/poetry.lock for development",
       pystr "  Consider adding: './containers/" ++ service_name
         ++ pystr "/pyproject.toml:/app/pyproject.toml'"]
    else []
  | _ => []

/-- The missing-`PYTHONPATH` message of line 95. -/
def pythonPathMsg (service_name : List Char) : List Char :=
  pystr "Python service " ++ service_name
    ++ pystr " should define PYTHONPATH environment variable"

/-- The `python_path_found` computation of lines 86-92. -/
def pythonPathFoundIn (env : EnvVal) : Bool :=
  match env with
  | .list es => es.any (fun e =>
      match e with
      | .str s => pyContains s (pystr "PYTHONPATH")
      | .nonStr => false)
  | .dict keys => keys.contains (pystr "PYTHONPATH")
  | .other => false

/-- The environment block of `validate_compose_service` (lines 85-95). -/
def composeEnvErrors (service_name : List Char) (cfg : ServiceConfig) :
    List (List Char) :=
  match cfg.environment with
  | some env =>
    if !pythonPathFoundIn env && is_python_service service_name then
      [pythonPathMsg service_name]
    else []
  | none => []

/-- `validate_compose_service(service_name, service_config)` (lines 23-97):
the three blocks append to one `errors` list in source order. -/
def validate_compose_service (service_name : List Char) (cfg : ServiceConfig) :
    List (List Char) :=
  composeBuildErrors service_name cfg ++ composeVolumeErrors service_name cfg
    ++ composeEnvErrors service_name cfg

/-! ## `scripts/validators/container_validator.py`: Python source analysis

`ast.parse` is an external library; its output is modelled by the node type
below, at the granularity the validator inspects: `import from` statements
(module, relative level, line number), assignments (the names of their
`ast.Name` targets, `none` for a non-`Name` target), nodes with nested bodies
(function/class/`if`/... definitions), and all other nodes.  `ast.walk`
visits every node of the tree, nested ones included; `walkNodes` below does
the same (visit order differs from CPython's breadth-first order, but the
validator only folds over the visited nodes one by one). -/

/-- A Python AST node, at the granularity `validate_init_file` and
`validate_imports` inspect. -/
inductive PyNode where
  | importFrom (module : Option (List Char)) (level : Nat) (lineno : Nat)
  | assign (targets : List (Option (List Char)))
  | compound (body : List PyNode)
  | atom

mutual

/-- All nodes visited by `ast.walk` on one node (the node and, recursively,
everything below it). -/
def walkNode : PyNode → List PyNode
  | .compound body => .compound body :: walkNodesList body
  | .importFrom m l n => [.importFrom m l n]
  | .assign ts => [.assign ts]
  | .atom => [.atom]

/-- All nodes visited by `ast.walk` on a list of sibling nodes (a module body). -/
def walkNodesList : List PyNode → List PyNode
  | [] => []
  | n :: rest => walkNode n ++ walkNodesList rest

end

/-- Does this visited node assign to a target named exactly `__all__`?
(the `isinstance(node, ast.Assign) and any(t.id == "__all__" ...)` test of
lines 184-185). -/
def assignsDunderAll (n : PyNode) : Bool :=
  match n with
  | .assign targets => targets.any (fun t => t = some (pystr "__all__"))
  | _ => false

/-- Is this visited node an `ast.ImportFrom`? (line 190). -/
def isImportFrom (n : PyNode) : Bool :=
  match n with
  | .importFrom _ _ _ => true
  | _ => false

/-- `has_all` of lines 183-187: some node anywhere in the walked tree assigns
to `__all__`. -/
def hasAllWalk (body : List PyNode) : Bool :=
  (walkNodesList body).any assignsDunderAll

/-- The `any(isinstance(node, ast.ImportFrom) ...)` test of lines 189-191. -/
def hasImportFromWalk (body : List PyNode) : Bool :=
  (walkNodesList body).any isImportFrom

/-- The missing-`__all__` message of line 192. -/
def missingAllMsg (path : List Char) : List Char :=
  pystr "Missing __all__ definition in " ++ path
    ++ pystr " when it contains imports"

/-- The syntax-error message of line 195 (and 223). -/
def synErrorMsg (path e : List Char) : List Char :=
  pystr "Syntax error in " ++ path ++ pystr ": " ++ e

/-- `validate_init_file(init_file)` (lines 171-200), over the outcome of
`ast.parse` on the file's text: a parse failure yields one syntax-error
finding; otherwise one finding is raised iff the tree contains an
`import from` statement and no assignment to `__all__`. -/
def validate_init_file_core (path : List Char)
    (parsed : Except (List Char) (List PyNode)) : List (List Char) :=
  match parsed with
  | .error e => [synErrorMsg path e]
  | .ok body =>
    if !hasAllWalk body && hasImportFromWalk body then [missingAllMsg path]
    else []

/-- The relative-import message of line 217:
`f"Relative import found in {py_file}: from {'.' * node.level}{node.module or ''} import ..."`.
Note it interpolates the file path and the import, not the line number. -/
def relImportMsg (path : List Char) (level : Nat) (module : Option (List Char)) :
    List Char :=
  pystr "Relative import found in " ++ path ++ pystr ": from "
    ++ List.replicate level '.' ++ module.getD [] ++ pystr " import ..."

/-- The deprecated-import message of line 220. -/
def deprImportMsg (path m : List Char) : List Char :=
  pystr "Deprecated import format in " ++ path ++ pystr ": from " ++ m
    ++ pystr " import ... (should start with the container name directly, e.g., 'foundation.' instead of 'containers.foundation.')"

/-- The per-node finding of the loop of lines 214-220: a relative import
(`node.level > 0`) or a deprecated absolute import (`node.module and
node.module.startswith('containers.')`). -/
def importNodeFinding (path : List Char) (n : PyNode) : List (List Char) :=
  match n with
  | .importFrom module level _lineno =>
    if level > 0 then [relImportMsg path level module]
    else
      match module with
      | some m =>
        if !m.isEmpty && pyStartsWith m (pystr "containers.") then
          [deprImportMsg path m]
        else []
      | none => []
  | _ => []

/-- The walk of `validate_imports` over a successfully parsed tree
(lines 213-220). -/
def validate_imports_core (path : List Char) (body : List PyNode) :
    List (List Char) :=
  (walkNodesList body).foldr (fun n acc => importNodeFinding path n ++ acc) []

/-- `validate_imports(py_file, package_path)` (lines 202-228), over the
outcome of `ast.parse` on the file's text. -/
def validate_imports_file (path : List Char)
    (parsed : Except (List Char) (List PyNode)) : List (List Char) :=
  match parsed with
  | .error e => [synErrorMsg path e]
  | .ok body => validate_imports_core path body

/-! ## `scripts/validators/container_validator.py`: container structure

The container directory is modelled as a list of entries (files and
directories) with container-relative path segments, in filesystem traversal
order (the order `rglob` yields).  The path segments above the container root
are assumed clean (no hidden or excluded ancestor directories), so skip
checks run over the container name followed by the relative segments.

Two external collaborators are parameters: `fmt` models `black.format_str`
(an `Except.error` models `black.InvalidInput`) and `parse` models
`ast.parse` on a file's text. -/

/-- One filesystem entry below a container root. -/
structure Entry where
  parts : List (List Char)
  isDir : Bool
  content : List Char
deriving DecidableEq

/-- A container directory as `validate_container_structure` receives it. -/
structure Container where
  cname : List Char
  isDir : Bool
  entries : List Entry
deriving DecidableEq

/-- `EXCLUDED_DIRS` (lines 25-41). -/
def EXCLUDED_DIRS : List (List Char) :=
  [pystr "__pycache__", pystr "common", pystr "tools", pystr "monitoring",
   pystr ".pytest_cache", pystr ".git", pystr ".venv", pystr "node_modules",
   pystr "build", pystr "dist", pystr "coverage", pystr ".coverage",
   pystr ".mypy_cache", pystr ".tox", pystr ".eggs"]

/-- `should_skip_directory(dir_path)` (lines 43-48) over path segments. -/
def should_skip_directory (parts : List (List Char)) : Bool :=
  parts.any (fun p => p.head? = some '.')
    || parts.any (fun p => EXCLUDED_DIRS.contains p)

/-- `is_utility_container(container_name)` (lines 230-233). -/
def is_utility_container (container_name : List Char) : Bool :=
  [pystr "common", pystr "tools", pystr "monitoring",
   pystr "resource_monitor"].contains container_name

/-- The file name of an entry (last path segment). -/
def entryName (e : Entry) : List Char := (e.parts.getLast?).getD []

/-- The directory segments of the entry's parent. -/
def parentParts (e : Entry) : List (List Char) := e.parts.dropLast

/-- Is this entry a file matched by `rglob("*.py")` / `glob("**/*.py")`? -/
def isPyFile (e : Entry) : Bool :=
  !e.isDir && List.isSuffixOf (pystr ".py") (entryName e)

/-- `path.exists()` for a container-relative path. -/
def existsPathE (entries : List Entry) (parts : List (List Char)) : Bool :=
  entries.any (fun e => e.parts == parts)

/-- `has_python_code(container_path)` (lines 235-238): some `*.py` file
anywhere below the container, and a `src` entry. -/
def hasPyCodeE (entries : List Entry) : Bool :=
  entries.any isPyFile && existsPathE entries [pystr "src"]

/-- Render a container-relative path for interpolation into a message. -/
def renderPath (cname : List Char) (parts : List (List Char)) : List Char :=
  List.intercalate (pystr "/") (cname :: parts)

/-- `format_python_files(container_path)` (lines 50-74), over the entry list:
for every `*.py` file whose parent directory is not skipped, replace its
content with the formatter's output, or record a syntax-error finding (the
`black.InvalidInput` branch, line 69-70) and leave the file unchanged.
Written as structural recursion over the entries in traversal order. -/
def format_python_files_go (fmt : List Char → Except (List Char) (List Char))
    (cname : List Char) : List Entry → List (List Char) × List Entry
  | [] => ([], [])
  | e :: rest =>
    let r := format_python_files_go fmt cname rest
    if isPyFile e && !should_skip_directory (cname :: parentParts e) then
      match fmt e.content with
      | .ok s => (r.1, { e with content := s } :: r.2)
      | .error m => (synErrorMsg (renderPath cname e.parts) m :: r.1, e :: r.2)
    else (r.1, e :: r.2)

/-- An entry abstracted to what the read-only validation steps consume: its
path, kind, and the outcome of `ast.parse` on its text (the source parses
each file at its point of use; `parse` being a pure function, parsing is
hoisted here to one place). -/
structure PEntry where
  parts : List (List Char)
  isDir : Bool
  parsed : Except (List Char) (List PyNode)

/-- Abstract one entry under a fixed `ast.parse` model. -/
def absEntry (parse : List Char → Except (List Char) (List PyNode))
    (e : Entry) : PEntry :=
  ⟨e.parts, e.isDir, parse e.content⟩

/-- `path.exists()` over abstracted entries. -/
def existsPathP (p : List PEntry) (parts : List (List Char)) : Bool :=
  p.any (fun e => e.parts == parts)

/-- `isPyFile` over abstracted entries. -/
def isPyFileP (e : PEntry) : Bool :=
  !e.isDir && List.isSuffixOf (pystr ".py") ((e.parts.getLast?).getD [])

/-- `has_python_code` over abstracted entries. -/
def hasPyCodeP (p : List PEntry) : Bool :=
  p.any isPyFileP && existsPathP p [pystr "src"]

/-- The parse outcome of the file at `parts` (all uses are guarded by an
existence check, so the `none` default is unreachable there). -/
def parsedAt (p : List PEntry) (parts : List (List Char)) :
    Except (List Char) (List PyNode) :=
  match p.find? (fun e => e.parts == parts) with
  | some e => e.parsed
  | none => .error (pystr "FileNotFoundError")

/-- `validate_python_package(package_path, package_name)` (lines 139-169):
root `__init__.py` presence/contents, `__init__.py` in every non-skipped
subdirectory, and import hygiene of every non-`__init__` Python file. -/
def validate_python_package (cname : List Char) (p : List PEntry)
    (base : List (List Char)) (pkgName : List Char) : List (List Char) :=
  let rootInit := base ++ [pkgName, pystr "__init__.py"]
  (if !existsPathP p rootInit && pkgName ≠ pystr "tests" then
     [pystr "Missing package __init__.py file at "
        ++ List.intercalate (pystr "/") (rootInit.drop base.length)]
   else if existsPathP p rootInit then
     validate_init_file_core (renderPath cname rootInit) (parsedAt p rootInit)
   else []) ++
  ((p.filter (fun d => d.isDir && List.isPrefixOf base d.parts
      && decide (base.length < d.parts.length)
      && !should_skip_directory (cname :: d.parts))).map (fun d =>
    let initFile := d.parts ++ [pystr "__init__.py"]
    if !existsPathP p initFile then
      [pystr "Missing __init__.py in Python package directory: "
         ++ List.intercalate (pystr "/") (d.parts.drop base.length)]
    else
      validate_init_file_core (renderPath cname initFile)
        (parsedAt p initFile))).flatten ++
  ((p.filter (fun f => isPyFileP f && List.isPrefixOf base f.parts
      && decide (base.length < f.parts.length)
      && (f.parts.getLast?).getD [] ≠ pystr "__init__.py"
      && !should_skip_directory (cname :: f.parts.dropLast))).map (fun f =>
    validate_imports_file (renderPath cname f.parts) f.parsed)).flatten

/-- `validate_poetry_configuration(container_path)` (lines 119-137). -/
def validate_poetry_configuration (p : List PEntry) : List (List Char) :=
  (if !existsPathP p [pystr "pyproject.toml"] && hasPyCodeP p then
     [pystr "Missing pyproject.toml (required for Poetry dependency management)"]
   else []) ++
  (if existsPathP p [pystr "requirements.txt"] then
     [pystr "requirements.txt found - should use pyproject.toml with Poetry instead"]
   else []) ++
  (if existsPathP p [pystr "setup.py"] then
     [pystr "setup.py found - should use pyproject.toml with Poetry instead"]
   else [])

/-- The read-only part of `validate_container_structure` (lines 92-115): the
Dockerfile requirement, the `src`/`tests` package validation, and the Poetry
configuration checks, all over the (post-formatting) abstracted entries. -/
def containerStructChecks (cname : List Char) (isDir : Bool)
    (p : List PEntry) : List (List Char) :=
  if isDir then
    (if !is_utility_container cname && !existsPathP p [pystr "Dockerfile"] then
       [pystr "Missing required file: Dockerfile"]
     else []) ++
    (if hasPyCodeP p then
       (if existsPathP p [pystr "src"] then
          validate_python_package cname p [pystr "src"] cname
        else []) ++
       (if existsPathP p [pystr "tests"] then
          (if !existsPathP p [pystr "tests", pystr "__init__.py"] then
             [pystr "Missing __init__.py in tests directory"]
           else validate_python_package cname p [pystr "tests"] (pystr "tests"))
        else [])
     else []) ++
    validate_poetry_configuration p
  else []

/-- `validate_container_structure(container_path)` (lines 76-117), with the
filesystem passed and returned explicitly: excluded containers are returned
untouched with no findings; otherwise the Python files are first rewritten
with the formatter (`format_python_files`, a mutation of the artifact) and
the read-only checks then run over the resulting state. -/
def validate_container_structure
    (fmt : List Char → Except (List Char) (List Char))
    (parse : List Char → Except (List Char) (List PyNode))
    (c : Container) : List (List Char) × Container :=
  if c.cname ∈ EXCLUDED_DIRS then ([], c)
  else
    let r :=
      if hasPyCodeE c.entries then format_python_files_go fmt c.cname c.entries
      else ([], c.entries)
    (r.1 ++ containerStructChecks c.cname c.isDir (r.2.map (absEntry parse)),
     { c with entries := r.2 })

/-! ## `scripts/validators/poetry_validator.py`

`pyproject.toml` is consumed as an already-parsed TOML value (spec §6: "a
nested key-value mapping parsed from the TOML-like structured text").  A
`leaf` is any non-table TOML value; `part in current` on a leaf raises
`TypeError` in Python, which the function's `except` clause turns into the
same `False` result that a missing key produces, so walking into a leaf is
modelled as plain failure. -/

/-- A parsed TOML value at the granularity `validate_poetry_config` reads. -/
inductive Toml where
  | table (entries : List (List Char × Toml))
  | leaf

/-- Walk a dotted-section path through a TOML value (`part in current` /
`current = current[part]`, lines 51-57): `false` when a key is missing or a
leaf is reached (the leaf's `TypeError` is caught and also yields an invalid
result). -/
def tomlHasPath : Toml → List (List Char) → Bool
  | _, [] => true
  | .table es, k :: rest =>
    match es.find? (fun p => p.1 == k) with
    | some p => tomlHasPath p.2 rest
    | none => false
  | .leaf, _ :: _ => false

/-- The files of a container that `validate_poetry_config` consults;
`pyproject` is the outcome of `tomli.load` on `pyproject.toml` (`none`
models a parse failure, caught by the `except` clause and reported as
invalid). -/
structure PoetryContainer where
  hasPyproject : Bool
  hasRequirements : Bool
  hasSetup : Bool
  pyproject : Option Toml

/-- `REQUIRED_FIELDS` (line 20). -/
def REQUIRED_FIELDS : List (List Char) :=
  [pystr "name", pystr "version", pystr "description"]

/-- `validate_poetry_config(container_path)` (lines 23-76): a BOOLEAN —
`True` for a valid configuration, `False` otherwise.  The checks run in
source order: `pyproject.toml` present, `requirements.txt`/`setup.py`
absent, the `REQUIRED_SECTIONS` (`tool.poetry`,
`tool.poetry.dependencies`), the `REQUIRED_FIELDS` under `tool.poetry`,
and a `python` entry under the dependencies.  (`REQUIRED_DEV_SECTIONS` is
defined in the source but never consulted.) -/
def validate_poetry_config (pc : PoetryContainer) : Bool :=
  pc.hasPyproject && !pc.hasRequirements && !pc.hasSetup &&
    match pc.pyproject with
    | none => false
    | some t =>
      tomlHasPath t [pystr "tool", pystr "poetry"] &&
      tomlHasPath t [pystr "tool", pystr "poetry", pystr "dependencies"] &&
      REQUIRED_FIELDS.all (fun f =>
        tomlHasPath t [pystr "tool", pystr "poetry", f]) &&
      tomlHasPath t [pystr "tool", pystr "poetry", pystr "dependencies",
        pystr "python"]

/-! ## `scripts/check_standards.py`

`check_containers` mixes the validators' results.  Its Poetry block
(lines 28-34) stores the BOOLEAN returned by `validate_poetry_config` in
`poetry_errors` and then treats it as a list: `if poetry_errors:` is the
boolean itself, and `for error in poetry_errors:` iterates it.  Iterating a
`bool` raises `TypeError` in Python; the dynamic value and the iteration
attempt are modelled explicitly. -/

/-- A Python value that is either a `bool` or a list of strings. -/
inductive PyVal where
  | pybool (b : Bool)
  | pylist (xs : List (List Char))

/-- Python truthiness of such a value. -/
def pyTruthy : PyVal → Bool
  | .pybool b => b
  | .pylist xs => !xs.isEmpty

/-- Python `for ... in v`: iterating a `bool` raises `TypeError`. -/
def pyIterate : PyVal → Except (List Char) (List (List Char))
  | .pylist xs => .ok xs
  | .pybool _ => .error (pystr "TypeError: 'bool' object is not iterable")

/-- The Poetry block of `check_containers` for one container (lines 28-34):
given the current `all_valid`, returns the updated `all_valid` and the
reported error lines, or the uncaught exception.  When the guard is taken
the source sets `all_valid = False` and prints a header before the `for`
raises, but the function never returns on that path, so only the exception
is observable. -/
def check_containers_poetry_block (pc : PoetryContainer) (all_valid : Bool) :
    Except (List Char) (Bool × List (List Char)) :=
  let poetry_errors := PyVal.pybool (validate_poetry_config pc)
  if pyTruthy poetry_errors then
    (pyIterate poetry_errors).map (fun errs => (false, errs))
  else .ok (all_valid, [])

/-- The Dockerfile block of `check_containers` (lines 36-48), over the
per-container `(dockerfile_errors, dockerfile_warnings)` results of
`validate_dockerfile` for the containers that have a Dockerfile: `all_valid`
is cleared when a container has errors; warnings are only printed. -/
def check_containers_dockerfile_all_valid
    (results : List (List (List Char) × List (List Char))) : Bool :=
  results.foldl (fun av r => if !r.1.isEmpty then false else av) true

/-! ## `scripts/validators/dockerfile_validator.py`, `main` (lines 138-163)

`main` prints warnings, then returns exit status 1 iff `errors` is
non-empty; `warnings` never influence the status. -/

/-- The exit status computed by `dockerfile_validator.main` from
`validate_dockerfile`'s `(errors, warnings)` result. -/
def dockerfile_validator_main_exit (errors _warnings : List (List Char)) :
    Nat :=
  if !errors.isEmpty then 1 else 0

/-! ## Spec-side definitions

For claims whose wording differs from the code, the wording itself is also
formalised so the difference can be exhibited.  These definitions follow the
spec's words, not the source. -/

/-- Spec-side (claim C5): "the key as the first whitespace- or `=`-delimited
token of its argument". -/
def specEnvKeyOf (args : List Char) : List Char :=
  args.takeWhile (fun c => !pyWs c && c ≠ '=')

/-- Spec-side (claim C8): "a top-level assignment whose left-hand target is
named exactly `__all__`" — only the module body's own statements count, not
statements nested inside compound statements. -/
def specTopLevelHasAll (body : List PyNode) : Bool :=
  body.any assignsDunderAll

/-- Decimal rendering of a line number, for "the finding references the line
number". -/
def natChars (n : Nat) : List Char := (Nat.repr n).data

/-! ## Concrete example artifacts used by counterexamples and witnesses -/

/-- A Dockerfile instruction sequence satisfying every condition claim C4
lists — first instruction `FROM python:3.11-slim`, all eight required `ENV`
keys, the Poetry-installer `RUN` line, a `COPY` of both manifest files, a
`HEALTHCHECK` with the three flags, and the three required `LABEL` keys —
but with no `RUN` whose argument contains `poetry install`. -/
def c4Instrs : List Instr :=
  [(pystr "FROM", pystr "python:3.11-slim"),
   (pystr "ENV", pystr "PYTHONUNBUFFERED=1"),
   (pystr "ENV", pystr "PYTHONDONTWRITEBYTECODE=1"),
   (pystr "ENV", pystr "POETRY_VERSION=1.7.1"),
   (pystr "ENV", pystr "POETRY_HOME=/opt/poetry"),
   (pystr "ENV", pystr "POETRY_VIRTUALENVS_IN_PROJECT=true"),
   (pystr "ENV", pystr "POETRY_NO_INTERACTION=1"),
   (pystr "ENV", pystr "PYSETUP_PATH=/opt/pysetup"),
   (pystr "ENV", pystr "VENV_PATH=/opt/pysetup/.venv"),
   (pystr "RUN", pystr "curl -sSL https://install.python-poetry.org | python3 -"),
   (pystr "COPY", pystr "pyproject.toml poetry.lock ./"),
   (pystr "HEALTHCHECK", pystr "--interval=5s --timeout=3s --retries=3 CMD curl -f http://localhost/health"),
   (pystr "LABEL", pystr "maintainer=platform version=1.0 description=svc"),
   (pystr "CMD", pystr "poetry run python -m app")]

/-- `c4Instrs` with the dependency-installation `RUN` line added; used by the
amended claim's witness. -/
def c4InstrsFull : List Instr :=
  c4Instrs ++ [(pystr "RUN", pystr "poetry install --no-interaction")]

/-- A compose service configuration with a matching component build context
and no `environment` key at all (claim C6's counterexample). -/
def c6Config : ServiceConfig :=
  { build := some (.dict (some (pystr "./containers/worker-api")) none none),
    volumes := none,
    environment := none }

/-- An `__init__` module body with a top-level `from ... import` statement
and an `__all__` assignment nested inside a function body — not top-level
(claim C8's counterexample). -/
def c8Tree : List PyNode :=
  [.importFrom (some (pystr "helpers")) 0 1,
   .compound [.assign [some (pystr "__all__")]]]

/-- Model of the external `black.format_str` on the file contents appearing
in this development: black normalizes the unformatted source `x=1` to
`x = 1` with a trailing newline, and is the identity on the remaining,
already-formatted contents (black is idempotent). -/
def blackFmtModel (s : List Char) : Except (List Char) (List Char) :=
  if s = pystr "x=1" then .ok (pystr "x = 1\n") else .ok s

/-- Model of the external `ast.parse` on the file contents appearing in this
development: each of them parses to a single assignment to `x` (black's
reformatting never changes the parse outcome). -/
def astParseModel (_s : List Char) : Except (List Char) (List PyNode) :=
  .ok [.assign [some (pystr "x")]]

/-- A container with one Python file `src/app.py` whose content `x=1` is not
black-formatted (claim C2's counterexample). -/
def c2Container : Container :=
  { cname := pystr "svc",
    isDir := true,
    entries :=
      [{ parts := [pystr "src"], isDir := true, content := [] },
       { parts := [pystr "src", pystr "app.py"], isDir := false,
         content := pystr "x=1" }] }

/-- A `pyproject.toml` parse outcome that satisfies every check of
`validate_poetry_config`. -/
def pyprojectValidToml : Toml :=
  .table [(pystr "tool", .table
    [(pystr "poetry", .table
      [(pystr "name", .leaf),
       (pystr "version", .leaf),
       (pystr "description", .leaf),
       (pystr "dependencies", .table [(pystr "python", .leaf)])])])]

/-- A container whose Poetry configuration is valid
(`validate_poetry_config` returns `True`). -/
def poetryValidContainer : PoetryContainer :=
  { hasPyproject := true, hasRequirements := false, hasSetup := false,
    pyproject := some pyprojectValidToml }

/-- A container whose Poetry configuration is invalid (`pyproject.toml`
missing; `validate_poetry_config` returns `False`). -/
def poetryInvalidContainer : PoetryContainer :=
  { hasPyproject := false, hasRequirements := false, hasSetup := false,
    pyproject := none }

/-! ## Derived predicates used in theorem statements -/

/-- The physical lines `parse_dockerfile` keeps: stripped, non-blank,
non-comment (the filter of lines 26-28). -/
def keptLines (lines : List (List Char)) : List (List Char) :=
  (lines.map pyStrip).filter (fun l => !(l.isEmpty || l.head? = some '#'))

/-- Is a visited node a relative import (`node.level > 0`)? -/
def isRelNode (n : PyNode) : Bool :=
  match n with
  | .importFrom _ level _ => decide (0 < level)
  | _ => false

/-- Is a finding a relative-import finding (it starts with the
relative-import message's fixed head)?  Deprecated-import and syntax-error
findings start differently, whatever path is interpolated. -/
def isRelMsg (m : List Char) : Bool :=
  pyStartsWith m (pystr "Relative import found in ")

/-- The relative-import message a rel node yields (`[]` for other nodes). -/
def relMsgOf (path : List Char) (n : PyNode) : List Char :=
  match n with
  | .importFrom module level _ => relImportMsg path level module
  | _ => []

/-- Concrete Dockerfile text with no continuation lines (claim C9's
witness). -/
def c9Content : List Char :=
  pystr "FROM python:3.11-slim\n# comment\n\nRUN echo hi\nENV A=1"

/-- The structural view of a filesystem entry: its path and kind, without
its content (what formatting can never change). -/
def structView (e : Entry) : List (List Char) × Bool := (e.parts, e.isDir)

/-! # Theorems -/

/-! ### Claim C1 -/

/-- C1: the claim (and spec §4.1) says a non-blank, non-comment line with no
whitespace — a bare keyword such as `EXPOSE` — still parses without error,
with the argument becoming the empty string.  The code instead raises
`ValueError` out of `parse_dockerfile`: `line.split(None, 1)` yields a
single piece, and the tuple unpacking `instruction, arg = ...` (line 44)
fails.  This theorem evaluates the code at the failing input. -/
theorem C1_bare_keyword_raises_value_error :
    parse_dockerfile (pystr "EXPOSE") = .error valueErrorMsg := by rfl

/-! ### Claim C3 -/

/-- The Dockerfile-section fold of `check_containers` computes the
conjunction of the initial flag with per-container error-emptiness. -/
theorem foldl_all_valid_eq (results : List (List (List Char) × List (List Char)))
    (b : Bool) :
    results.foldl (fun av r => if !r.1.isEmpty then false else av) b
      = (b && results.all (fun r => r.1.isEmpty)) := by
  induction results generalizing b with
  | nil => simp
  | cons r rest ih =>
    rw [List.foldl_cons, List.all_cons, ih]
    cases hr : r.1.isEmpty <;> simp [hr]

/-- C3: an aggregated run passes iff no ERROR finding is present — the
Dockerfile section of `check_containers` keeps `all_valid` true exactly when
every container's error list is empty (warning lists never matter), and
`dockerfile_validator.main` exits 0 iff the error list is empty, whatever
the warning list is.  Zero findings pass, warnings alone pass, one error
fails. -/
theorem C3_passed_iff_no_error_findings
    (results : List (List (List Char) × List (List Char)))
    (errors warnings : List (List Char)) :
    (check_containers_dockerfile_all_valid results = true
       ↔ ∀ r ∈ results, r.1 = [])
    ∧ (dockerfile_validator_main_exit errors warnings = 0 ↔ errors = []) := by
  constructor
  · rw [check_containers_dockerfile_all_valid, foldl_all_valid_eq, Bool.true_and,
      List.all_eq_true]
    simp [List.isEmpty_iff]
  · cases errors <;> simp [dockerfile_validator_main_exit]

/-- Witness for C3 at a concrete run: one container with only a warning
passes; an error list of one fails. -/
theorem C3_passed_iff_no_error_findings_witness :
    (check_containers_dockerfile_all_valid [([], [pystr "w"])] = true
       ↔ ∀ r ∈ [(([] : List (List Char)), [pystr "w"])], r.1 = [])
    ∧ (dockerfile_validator_main_exit [pystr "e"] [] = 0
       ↔ [pystr "e"] = []) :=
  C3_passed_iff_no_error_findings [([], [pystr "w"])] [pystr "e"] []

/-! ### Claim C10 -/

/-- C10: `check_containers` treats the boolean result of
`validate_poetry_config` as a list of error strings.  For a container whose
Poetry configuration is valid (the validator returns `True`), the guard
`if poetry_errors:` is taken and `for error in poetry_errors:` raises an
uncaught `TypeError`; for an invalid configuration (`False`), the guard is
skipped, so no Poetry error is reported and `all_valid` is left unchanged. -/
theorem C10_poetry_bool_iterated (pc1 pc2 : PoetryContainer) (av1 av2 : Bool)
    (h1 : validate_poetry_config pc1 = true)
    (h2 : validate_poetry_config pc2 = false) :
    check_containers_poetry_block pc1 av1
        = .error (pystr "TypeError: 'bool' object is not iterable")
    ∧ check_containers_poetry_block pc2 av2 = .ok (av2, []) := by
  unfold check_containers_poetry_block
  rw [h1, h2]
  exact ⟨rfl, rfl⟩

/-- Witness for C10 at concrete containers: a fully valid Poetry
configuration raises `TypeError`; a container with no `pyproject.toml` is
reported error-free with `all_valid` untouched. -/
theorem C10_poetry_bool_iterated_witness :
    check_containers_poetry_block poetryValidContainer true
        = .error (pystr "TypeError: 'bool' object is not iterable")
    ∧ check_containers_poetry_block poetryInvalidContainer false
        = .ok (false, []) :=
  C10_poetry_bool_iterated poetryValidContainer poetryInvalidContainer true false
    (by decide) (by decide)

/-! ### Claim C6 -/

/-- C6 counterexample: the service `worker-api` classifies as a Python
service and its configuration (`c6Config`) has no `environment` key at all —
so it lacks `PYTHONPATH` among its environment entries — yet
`validate_compose_service` emits no finding whatsoever: the `PYTHONPATH`
check of lines 84-95 only runs when an `environment` key is present. -/
theorem C6_missing_env_section_counterexample :
    is_python_service (pystr "worker-api") = true
    ∧ c6Config.environment = none
    ∧ validate_compose_service (pystr "worker-api") c6Config = [] := by
  refine ⟨by decide, rfl, by decide⟩

/-- C6 amended: the Python-service classification is a case-insensitive
substring match against the fixed keyword list (`worker-api` matches,
`gateway` does not); and for every compose service that classifies as a
Python service and whose configuration HAS an `environment` entry in which
`PYTHONPATH` is not found, `validate_compose_service` emits the finding
naming the missing `PYTHONPATH` requirement (a service with no
`environment` entry is not checked). -/
theorem C6_pythonpath_for_python_services :
    is_python_service (pystr "worker-api") = true
    ∧ is_python_service (pystr "gateway") = false
    ∧ ∀ (name : List Char) (cfg : ServiceConfig) (env : EnvVal),
        cfg.environment = some env → pythonPathFoundIn env = false →
        is_python_service name = true →
        pythonPathMsg name ∈ validate_compose_service name cfg := by
  refine ⟨by decide, by decide, ?_⟩
  intro name cfg env henv hpath hpy
  unfold validate_compose_service composeEnvErrors
  rw [henv]
  simp [hpath, hpy]

/-- Witness for C6 at a concrete service: `worker-api` with an empty
`environment` list receives the missing-`PYTHONPATH` finding. -/
theorem C6_pythonpath_for_python_services_witness :
    pythonPathMsg (pystr "worker-api")
      ∈ validate_compose_service (pystr "worker-api")
        { build := none, volumes := none, environment := some (.list []) } :=
  C6_pythonpath_for_python_services.2.2 (pystr "worker-api")
    { build := none, volumes := none, environment := some (.list []) }
    (.list []) rfl (by decide) (by decide)

/-! ### Claim C8 -/

/-- `ast.walk` over concatenated sibling lists concatenates the visits. -/
theorem walkNodesList_append (a b : List PyNode) :
    walkNodesList (a ++ b) = walkNodesList a ++ walkNodesList b := by
  induction a with
  | nil => simp [walkNodesList]
  | cons n rest ih => simp [walkNodesList, ih]

/-- C8 counterexample: `c8Tree` is a parseable `__init__` body with an
import-from statement and no TOP-LEVEL `__all__` assignment (its only
`__all__` assignment is nested inside a compound statement), so the claim
demands exactly one missing-`__all__` finding; the code walks the whole tree
with `ast.walk`, sees the nested assignment, and emits none. -/
theorem C8_nested_all_counterexample :
    hasImportFromWalk c8Tree = true
    ∧ specTopLevelHasAll c8Tree = false
    ∧ validate_init_file_core (pystr "pkg/__init__.py") (.ok c8Tree) = [] := by
  decide

/-- C8 amended: for every parseable `__init__` module body,
`validate_init_file` emits exactly one missing-`__all__` finding iff the
module contains an import-from statement and no assignment ANYWHERE in the
tree (top-level or nested) whose left-hand target is named exactly
`__all__`; and adding such an assignment removes the finding. -/
theorem C8_all_required_when_imports (path : List Char) (body : List PyNode) :
    (validate_init_file_core path (.ok body) = [missingAllMsg path]
       ↔ (hasImportFromWalk body = true ∧ hasAllWalk body = false))
    ∧ validate_init_file_core path
        (.ok (body ++ [.assign [some (pystr "__all__")]])) = [] := by
  constructor
  · unfold validate_init_file_core
    cases ha : hasAllWalk body <;> cases hi : hasImportFromWalk body <;> simp [ha, hi]
  · show (if (!hasAllWalk _ && hasImportFromWalk _) = true then _ else _) = _
    rw [hasAllWalk, walkNodesList_append]
    simp [walkNodesList, walkNode, assignsDunderAll]

/-- Witness for C8 at a concrete body: one top-level import-from with no
`__all__` yields the finding-characterising equivalence, and appending the
`__all__` assignment yields no finding. -/
theorem C8_all_required_when_imports_witness :
    (validate_init_file_core (pystr "p")
        (.ok [PyNode.importFrom (some (pystr "m")) 0 1])
        = [missingAllMsg (pystr "p")]
       ↔ (hasImportFromWalk [PyNode.importFrom (some (pystr "m")) 0 1] = true
          ∧ hasAllWalk [PyNode.importFrom (some (pystr "m")) 0 1] = false))
    ∧ validate_init_file_core (pystr "p")
        (.ok ([PyNode.importFrom (some (pystr "m")) 0 1]
          ++ [.assign [some (pystr "__all__")]])) = [] :=
  C8_all_required_when_imports (pystr "p")
    [PyNode.importFrom (some (pystr "m")) 0 1]

/-! ### Claim C7 -/

/-- A relative-import message is recognised by `isRelMsg`. -/
theorem isRelMsg_relImportMsg (path : List Char) (lvl : Nat)
    (module : Option (List Char)) :
    isRelMsg (relImportMsg path lvl module) = true := by
  rw [isRelMsg, pyStartsWith, List.isPrefixOf_iff_prefix]
  exact List.prefix_append _ _

/-- Lists with different head characters are not prefix-related. -/
theorem isPrefixOf_cons_ne (a b : Char) (s t : List Char) (h : a ≠ b) :
    (a :: s).isPrefixOf (b :: t) = false := by
  simp [List.isPrefixOf, h]

/-- A deprecated-import message is not a relative-import finding, whatever
path and module are interpolated. -/
theorem isRelMsg_deprImportMsg (path m : List Char) :
    isRelMsg (deprImportMsg path m) = false := by
  have h1 : deprImportMsg path m
      = 'D' :: ((((pystr "eprecated import format in " ++ path) ++ pystr ": from ")
          ++ m) ++ pystr " import ... (should start with the container name directly, e.g., 'foundation.' instead of 'containers.foundation.')") := rfl
  have h2 : pystr "Relative import found in "
      = 'R' :: pystr "elative import found in " := rfl
  rw [isRelMsg, pyStartsWith, h1, h2]
  exact isPrefixOf_cons_ne _ _ _ _ (by decide)

/-- The relative-import findings among the findings produced from a visited
node list are exactly the relative-import messages of its relative-import
nodes, in order. -/
theorem filter_relMsgs (path : List Char) (ns : List PyNode) :
    ((ns.foldr (fun n acc => importNodeFinding path n ++ acc) []).filter isRelMsg)
      = (ns.filter isRelNode).map (relMsgOf path) := by
  induction ns with
  | nil => rfl
  | cons n rest ih =>
    rw [List.foldr_cons, List.filter_append, ih, List.filter_cons]
    cases n with
    | importFrom module lvl ln =>
      by_cases h : 0 < lvl
      · simp [importNodeFinding, isRelNode, h, relMsgOf, isRelMsg_relImportMsg]
      · cases module with
        | none => simp [importNodeFinding, isRelNode, h]
        | some m =>
          by_cases hm : (!m.isEmpty && pyStartsWith m (pystr "containers.")) = true
          · simp [importNodeFinding, isRelNode, h, hm, isRelMsg_deprImportMsg]
          · simp [importNodeFinding, isRelNode, h, hm]
    | assign ts => simp [importNodeFinding, isRelNode]
    | compound b => simp [importNodeFinding, isRelNode]
    | atom => simp [importNodeFinding, isRelNode]

/-- C7 counterexample: a parseable file with exactly one relative import
(`from . import helper`, at line 42) yields exactly one relative-import
finding, but the finding's message does not reference the line number: the
source interpolates only the file path and the dotted module (line 217), and
`42` occurs nowhere in the message. -/
theorem C7_no_line_number_counterexample :
    validate_imports_core (pystr "src/helper.py") [.importFrom none 1 42]
      = [relImportMsg (pystr "src/helper.py") 1 none]
    ∧ (walkNodesList [PyNode.importFrom none 1 42]).countP isRelNode = 1
    ∧ pyContains (relImportMsg (pystr "src/helper.py") 1 none) (natChars 42)
        = false := by
  refine ⟨by decide, by decide, by decide⟩

/-- C7 amended: for every parseable Python source containing exactly one
relative import statement, the import check emits exactly one
relative-import finding, and that finding references the file (the path is a
substring of the message) — though not the line number. -/
theorem C7_one_relative_import_finding (path : List Char) (body : List PyNode)
    (h : (walkNodesList body).countP isRelNode = 1) :
    ∃ lvl module, 0 < lvl
      ∧ (validate_imports_core path body).filter isRelMsg
          = [relImportMsg path lvl module]
      ∧ path <:+: relImportMsg path lvl module := by
  have hf : (validate_imports_core path body).filter isRelMsg
      = ((walkNodesList body).filter isRelNode).map (relMsgOf path) :=
    filter_relMsgs path (walkNodesList body)
  rw [List.countP_eq_length_filter, List.length_eq_one] at h
  obtain ⟨n0, hn0⟩ := h
  have hmem : n0 ∈ (walkNodesList body).filter isRelNode := by rw [hn0]; simp
  have hrel : isRelNode n0 = true := (List.mem_filter.mp hmem).2
  cases n0 with
  | importFrom module lvl ln =>
    refine ⟨lvl, module, by simpa [isRelNode] using hrel, ?_, ?_⟩
    · rw [hf, hn0]
      rfl
    · refine ⟨pystr "Relative import found in ",
        pystr ": from " ++ List.replicate lvl '.' ++ module.getD []
          ++ pystr " import ...", ?_⟩
      simp [relImportMsg, List.append_assoc]
  | assign ts => simp [isRelNode] at hrel
  | compound b => simp [isRelNode] at hrel
  | atom => simp [isRelNode] at hrel

/-- Witness for C7 at a concrete file: `from . import helper` at line 7 of
`pkg/util.py`. -/
theorem C7_one_relative_import_finding_witness :
    ∃ lvl module, 0 < lvl
      ∧ (validate_imports_core (pystr "pkg/util.py")
          [PyNode.atom, PyNode.importFrom none 1 7]).filter isRelMsg
          = [relImportMsg (pystr "pkg/util.py") lvl module]
      ∧ pystr "pkg/util.py" <:+: relImportMsg (pystr "pkg/util.py") lvl module :=
  C7_one_relative_import_finding (pystr "pkg/util.py")
    [PyNode.atom, PyNode.importFrom none 1 7] (by decide)

/-! ### Claim C5 -/

/-- When the `found_env_vars` loop completes without an `IndexError`, a key
is in the found set iff some `ENV` instruction yields it — independent of
instruction order. -/
theorem foundEnvKeys_ok_contains (instrs : List Instr) (ks : List (List Char))
    (h : foundEnvKeys instrs = .ok ks) (v : List Char) :
    ks.contains v
      = instrs.any (fun p => p.1 == pystr "ENV" && envKeyOf p.2 == some v) := by
  induction instrs generalizing ks with
  | nil =>
    obtain rfl : ([] : List (List Char)) = ks := by
      simpa [foundEnvKeys] using h
    simp
  | cons p rest ih =>
    rw [foundEnvKeys] at h
    by_cases hp : p.1 = pystr "ENV"
    · rw [if_pos hp] at h
      cases hk : envKeyOf p.2 with
      | none => rw [hk] at h; simp at h
      | some k =>
        rw [hk] at h
        cases hr : foundEnvKeys rest with
        | error e => rw [hr] at h; simp [Except.map] at h
        | ok ks2 =>
          rw [hr] at h
          obtain rfl : k :: ks2 = ks := by simpa [Except.map] using h
          rw [List.any_cons, ← ih ks2 hr]
          simp [hp, hk, List.contains_cons, Bool.beq_comm, beq_eq_decide]
    · rw [if_neg hp] at h
      rw [List.any_cons, ← ih ks h]
      simp [hp]

/-- C5 counterexample: for the argument `PYTHONUNBUFFERED x=1` (the
`ENV KEY VALUE` form with an `=` inside the value), the claim's extraction —
the first whitespace- or `=`-delimited token — is `PYTHONUNBUFFERED`, but
the code takes everything before the first `=` (`args.split("=")[0].strip()`),
yielding `PYTHONUNBUFFERED x`; consequently the checker reports
`PYTHONUNBUFFERED` missing although it is declared. -/
theorem C5_eq_split_counterexample :
    envKeyOf (pystr "PYTHONUNBUFFERED x=1") = some (pystr "PYTHONUNBUFFERED x")
    ∧ specEnvKeyOf (pystr "PYTHONUNBUFFERED x=1") = pystr "PYTHONUNBUFFERED"
    ∧ check_environment_variables [(pystr "ENV", pystr "PYTHONUNBUFFERED x=1")]
        = .ok (requiredEnvVars.map missingEnvMsg) := by
  refine ⟨by rfl, by rfl, by rfl⟩

/-- C5 amended: the key of an `ENV` instruction is extracted as everything
before the first `=` (stripped) when the argument contains `=`, and
otherwise as the first whitespace-delimited token; whenever the checker
completes without an exception it emits exactly the missing-variable error
for each of the eight required keys not extracted from any `ENV`
instruction, regardless of instruction order. -/
theorem C5_missing_env_characterisation (instrs : List Instr)
    (msgs : List (List Char))
    (h : check_environment_variables instrs = .ok msgs) :
    msgs = (requiredEnvVars.filter (fun v =>
      !instrs.any (fun p => p.1 == pystr "ENV" && envKeyOf p.2 == some v))).map
        missingEnvMsg := by
  rw [check_environment_variables] at h
  cases hf : foundEnvKeys instrs with
  | error e => rw [hf] at h; simp [Except.map] at h
  | ok found =>
    rw [hf] at h
    obtain rfl :
        (requiredEnvVars.filter (fun v => !found.contains v)).map missingEnvMsg
          = msgs := by simpa [Except.map] using h
    congr 1
    apply List.filter_congr
    intro v _
    rw [foundEnvKeys_ok_contains instrs found hf v]

/-- Witness for C5 at a concrete instruction list that declares all eight
keys: no missing-variable errors are emitted. -/
theorem C5_missing_env_characterisation_witness :
    ([] : List (List Char)) = (requiredEnvVars.filter (fun v =>
      !c4InstrsFull.any (fun p =>
        p.1 == pystr "ENV" && envKeyOf p.2 == some v))).map missingEnvMsg :=
  C5_missing_env_characterisation c4InstrsFull [] (by rfl)

/-! ### Claim C4 -/

/-- `contains` distributes over list append. -/
theorem contains_append_keys (a b : List (List Char)) (x : List Char) :
    (a ++ b).contains x = (a.contains x || b.contains x) := by
  induction a with
  | nil => simp
  | cons y ys ih => simp [List.contains_cons, ih, Bool.or_assoc]

/-- When every `ENV` instruction's argument yields a key, the
`found_env_vars` loop completes without an `IndexError`. -/
theorem foundEnvKeys_ok_of (instrs : List Instr)
    (h : instrs.all (fun p => p.1 != pystr "ENV" || (envKeyOf p.2).isSome)
      = true) :
    ∃ ks, foundEnvKeys instrs = .ok ks := by
  induction instrs with
  | nil => exact ⟨[], rfl⟩
  | cons p rest ih =>
    rw [List.all_cons, Bool.and_eq_true] at h
    obtain ⟨ks, hks⟩ := ih h.2
    by_cases hp : p.1 = pystr "ENV"
    · have hsome : (envKeyOf p.2).isSome = true := by
        have := h.1
        simp [hp] at this
        exact this
      cases hk : envKeyOf p.2 with
      | none => rw [hk] at hsome; simp at hsome
      | some k =>
        refine ⟨k :: ks, ?_⟩
        rw [foundEnvKeys, if_pos hp, hk, hks]
        rfl
    · refine ⟨ks, ?_⟩
      rw [foundEnvKeys, if_neg hp]
      exact hks

/-- A label key contributed by some `LABEL` instruction is in the found
label set. -/
theorem foundLabelKeys_contains_of (instrs : List Instr) (l : List Char)
    (h : instrs.any (fun p =>
      p.1 == pystr "LABEL" && (labelKeysOf p.2).contains l) = true) :
    (foundLabelKeys instrs).contains l = true := by
  induction instrs with
  | nil => simp at h
  | cons p rest ih =>
    rw [List.any_cons, Bool.or_eq_true] at h
    have hstep : foundLabelKeys (p :: rest)
        = if p.1 = pystr "LABEL" then labelKeysOf p.2 ++ foundLabelKeys rest
          else foundLabelKeys rest := rfl
    by_cases hp : p.1 = pystr "LABEL"
    · rw [hstep, if_pos hp, contains_append_keys, Bool.or_eq_true]
      rcases h with h | h
      · rw [Bool.and_eq_true] at h
        exact .inl h.2
      · exact .inr (ih h)
    · rw [hstep, if_neg hp]
      rcases h with h | h
      · rw [Bool.and_eq_true] at h
        exact absurd h.1 (by simp [hp])
      · exact ih h

/-- C4 counterexample: `c4Instrs` satisfies every condition the claim lists
(first instruction `FROM python:3.11-slim`, all eight `ENV` keys, the
Poetry-install `RUN` line — the installer command that
`check_poetry_installation` requires —, a `COPY` naming both manifest files,
a `HEALTHCHECK` with the three flags, and the three `LABEL` keys), yet the
checker union emits an ERROR: `check_dependencies_installation` also
requires a `RUN` whose argument contains `poetry install`, which the claim
does not list. -/
theorem C4_missing_poetry_install_counterexample :
    check_base_image c4Instrs = []
    ∧ check_environment_variables c4Instrs = .ok []
    ∧ check_poetry_installation c4Instrs = []
    ∧ check_healthcheck c4Instrs = []
    ∧ check_labels c4Instrs = []
    ∧ check_dependencies_installation c4Instrs
        = [pystr "Must install dependencies using poetry install"] := by
  refine ⟨by rfl, by rfl, by rfl, by rfl, by rfl, by rfl⟩

/-- C4 amended: a Dockerfile whose instruction sequence starts with
`FROM python:3.11-slim`, declares all eight required `ENV` keys (and no
`ENV` instruction with an empty argument), has a `RUN` containing the
Poetry installer command AND a `RUN` containing `poetry install`, a `COPY`
naming both manifest files, a first `HEALTHCHECK` whose argument contains
`--interval`, `--timeout` and `--retries`, and `LABEL` `key=value` tokens
covering maintainer, version and description, receives zero ERROR findings
from all six checks of the Dockerfile checker. -/
theorem C4_conforming_dockerfile_clean (instrs : List Instr)
    (h1 : instrs.head? = some (pystr "FROM", pystr "python:3.11-slim"))
    (h2 : requiredEnvVars.all (fun v => instrs.any (fun p =>
        p.1 == pystr "ENV" && envKeyOf p.2 == some v)) = true)
    (h2b : instrs.all (fun p =>
        p.1 != pystr "ENV" || (envKeyOf p.2).isSome) = true)
    (h3 : instrs.any (fun p =>
        p.1 = pystr "RUN" && pyContains p.2 poetryInstallCmd) = true)
    (h3b : instrs.any (fun p =>
        p.1 = pystr "RUN" && pyContains p.2 (pystr "poetry install")) = true)
    (h4 : instrs.any (fun p =>
        p.1 = pystr "COPY" && pyContains p.2 (pystr "pyproject.toml")
          && pyContains p.2 (pystr "poetry.lock")) = true)
    (h5 : (instrs.find? (fun p => p.1 = pystr "HEALTHCHECK")).any (fun hc =>
        pyContains hc.2 (pystr "--interval") && pyContains hc.2 (pystr "--timeout")
          && pyContains hc.2 (pystr "--retries")) = true)
    (h6 : requiredLabels.all (fun l => instrs.any (fun p =>
        p.1 == pystr "LABEL" && (labelKeysOf p.2).contains l)) = true) :
    check_base_image instrs = []
    ∧ check_environment_variables instrs = .ok []
    ∧ check_poetry_installation instrs = []
    ∧ check_dependencies_installation instrs = []
    ∧ check_healthcheck instrs = []
    ∧ check_labels instrs = [] := by
  refine ⟨?_, ?_, ?_, ?_, ?_, ?_⟩
  · cases instrs with
    | nil => simp at h1
    | cons p rest =>
      have hp : p = (pystr "FROM", pystr "python:3.11-slim") := by simpa using h1
      subst hp
      rfl
  · obtain ⟨ks, hks⟩ := foundEnvKeys_ok_of instrs h2b
    rw [check_environment_variables, hks]
    have hnil : requiredEnvVars.filter (fun v => !ks.contains v) = [] := by
      rw [List.filter_eq_nil_iff]
      intro v hv
      rw [List.all_eq_true] at h2
      have hv2 := h2 v hv
      rw [foundEnvKeys_ok_contains instrs ks hks v, hv2]
      simp
    simp only [Except.map]
    rw [hnil]
    rfl
  · rw [check_poetry_installation, h3]
    rfl
  · simp only [check_dependencies_installation, h3b, h4]
    rfl
  · rw [check_healthcheck]
    cases hfind : instrs.find? (fun p => p.1 = pystr "HEALTHCHECK") with
    | none => rw [hfind] at h5; simp at h5
    | some hc =>
      rw [hfind] at h5
      simp only [Option.any_some, Bool.and_eq_true] at h5
      simp [h5.1.1, h5.1.2, h5.2]
  · rw [check_labels]
    have hnil : requiredLabels.filter
        (fun l => !(foundLabelKeys instrs).contains l) = [] := by
      rw [List.filter_eq_nil_iff]
      intro l hl
      rw [List.all_eq_true] at h6
      rw [foundLabelKeys_contains_of instrs l (h6 l hl)]
      simp
    rw [hnil]
    rfl

/-- Witness for C4 at the concrete conforming Dockerfile `c4InstrsFull`. -/
theorem C4_conforming_dockerfile_clean_witness :
    check_base_image c4InstrsFull = []
    ∧ check_environment_variables c4InstrsFull = .ok []
    ∧ check_poetry_installation c4InstrsFull = []
    ∧ check_dependencies_installation c4InstrsFull = []
    ∧ check_healthcheck c4InstrsFull = []
    ∧ check_labels c4InstrsFull = [] :=
  C4_conforming_dockerfile_clean c4InstrsFull (by rfl) (by rfl) (by rfl)
    (by rfl) (by rfl) (by rfl) (by rfl) (by rfl)

/-! ### Claim C9 -/

/-- With no continuation markers and no open continuation buffer, the parse
loop produces exactly one `(instruction, argument)` pair — the two-way split
of the stripped line — per kept line, in order. -/
theorem parseLoop_no_continuation (lines : List (List Char))
    (curArgs : List (List Char)) (res : List Instr)
    (hnc : ∀ l ∈ lines, endsWithBackslash (pyStrip l) = false)
    (hok : parseLoop lines none curArgs = .ok res) :
    List.Forall₂ (fun l p => unpackSplit2 l = some p) (keptLines lines) res := by
  induction lines generalizing curArgs res with
  | nil =>
    obtain rfl : ([] : List Instr) = res := by simpa [parseLoop] using hok
    simp [keptLines]
  | cons raw rest ih =>
    have hnc1 : endsWithBackslash (pyStrip raw) = false := hnc raw (by simp)
    have hncr : ∀ l ∈ rest, endsWithBackslash (pyStrip l) = false :=
      fun l hl => hnc l (by simp [hl])
    rw [parseLoop] at hok
    by_cases hskip :
        ((pyStrip raw).isEmpty || (pyStrip raw).head? = some '#') = true
    · rw [if_pos hskip] at hok
      have hk : keptLines (raw :: rest) = keptLines rest := by
        simp only [keptLines, List.map_cons, List.filter_cons, hskip]
        simp
      rw [hk]
      exact ih curArgs res hncr hok
    · rw [if_neg hskip, if_neg (by simp [hnc1])] at hok
      cases hu : unpackSplit2 (pyStrip raw) with
      | none => rw [hu] at hok; simp at hok
      | some ia =>
        rw [hu] at hok
        cases hr : parseLoop rest none curArgs with
        | error e => rw [hr] at hok; simp [Except.map] at hok
        | ok r =>
          rw [hr] at hok
          obtain rfl : ia :: r = res := by simpa [Except.map] using hok
          have hk : keptLines (raw :: rest)
              = pyStrip raw :: keptLines rest := by
            simp only [keptLines, List.map_cons, List.filter_cons, hskip]
            simp
          rw [hk]
          exact List.Forall₂.cons hu (ih curArgs r hncr hr)

/-- C9: for every Dockerfile text in which no (stripped) line ends with a
continuation marker and on which `parse_dockerfile` succeeds, the result has
exactly one `(instruction, argument)` pair per non-blank, non-comment
physical line — each pair being the keyword/argument split of its line — in
source order. -/
theorem C9_one_instruction_per_line (content : List Char) (res : List Instr)
    (hnc : ∀ l ∈ splitNl content, endsWithBackslash (pyStrip l) = false)
    (hok : parse_dockerfile content = .ok res) :
    List.Forall₂ (fun l p => unpackSplit2 l = some p)
      (keptLines (splitNl content)) res :=
  parseLoop_no_continuation (splitNl content) [] res hnc hok

/-- Witness for C9 at a concrete Dockerfile text with a comment and a blank
line. -/
theorem C9_one_instruction_per_line_witness :
    List.Forall₂ (fun l p => unpackSplit2 l = some p)
      (keptLines (splitNl c9Content))
      [(pystr "FROM", pystr "python:3.11-slim"),
       (pystr "RUN", pystr "echo hi"), (pystr "ENV", pystr "A=1")] :=
  C9_one_instruction_per_line c9Content
    [(pystr "FROM", pystr "python:3.11-slim"),
     (pystr "RUN", pystr "echo hi"), (pystr "ENV", pystr "A=1")]
    (by decide) (by rfl)

/-! ### Claim C2 -/

/-- Rewriting a file's content leaves `isPyFile` unchanged. -/
theorem isPyFile_setContent (e : Entry) (s : List Char) :
    isPyFile { e with content := s } = isPyFile e := rfl

/-- Rewriting a file's content leaves its parent directory unchanged. -/
theorem parentParts_setContent (e : Entry) (s : List Char) :
    parentParts { e with content := s } = parentParts e := rfl

/-- Formatting rewrites only file contents: the structural view of the
entry list is unchanged. -/
theorem format_go_structView (fmt : List Char → Except (List Char) (List Char))
    (cname : List Char) (entries : List Entry) :
    ((format_python_files_go fmt cname entries).2).map structView
      = entries.map structView := by
  induction entries with
  | nil => rfl
  | cons e rest ih =>
    cases hc : (isPyFile e && !should_skip_directory (cname :: parentParts e)) with
    | true =>
      cases hf : fmt e.content with
      | ok s =>
        simp only [format_python_files_go, hc, if_true, hf, List.map_cons]
        rw [ih]
        rfl
      | error m =>
        simp only [format_python_files_go, hc, if_true, hf, List.map_cons]
        rw [ih]
    | false =>
      simp only [format_python_files_go, hc, Bool.false_eq_true, if_false,
        List.map_cons]
      rw [ih]

/-- When the formatter is idempotent, formatting is a one-shot operation:
running `format_python_files` again on the rewritten entries reproduces the
same findings and the same entries. -/
theorem format_go_fixpoint (fmt : List Char → Except (List Char) (List Char))
    (cname : List Char) (entries : List Entry)
    (hIdem : ∀ s t, fmt s = .ok t → fmt t = .ok t) :
    format_python_files_go fmt cname
        ((format_python_files_go fmt cname entries).2)
      = format_python_files_go fmt cname entries := by
  induction entries with
  | nil => rfl
  | cons e rest ih =>
    cases hc : (isPyFile e && !should_skip_directory (cname :: parentParts e)) with
    | true =>
      cases hf : fmt e.content with
      | ok s =>
        have hf2 : fmt s = .ok s := hIdem e.content s hf
        simp only [format_python_files_go, hc, if_true, hf, isPyFile_setContent,
          parentParts_setContent, hf2, ih]
      | error m =>
        simp only [format_python_files_go, hc, if_true, hf, ih]
    | false =>
      simp only [format_python_files_go, hc, Bool.false_eq_true, if_false, ih]

/-- Structure eta for containers. -/
theorem container_eta (c : Container) :
    ({ cname := c.cname, isDir := c.isDir, entries := c.entries } : Container)
      = c := rfl

/-- `any` over the structural view of an entry list. -/
theorem any_structView (l : List Entry) (p : List (List Char) × Bool → Bool) :
    (l.map structView).any p = l.any (fun e => p (structView e)) := by
  induction l with
  | nil => rfl
  | cons e rest ih => simp [List.any_cons, ih]

/-- `has_python_code` depends only on the structural view of the entries. -/
theorem hasPyCodeE_structView (l1 l2 : List Entry)
    (h : l1.map structView = l2.map structView) :
    hasPyCodeE l1 = hasPyCodeE l2 := by
  have hany : ∀ (l : List Entry), l.any isPyFile
      = (l.map structView).any (fun pr => !pr.2
          && List.isSuffixOf (pystr ".py") ((pr.1.getLast?).getD [])) :=
    fun l => (any_structView l (fun pr => !pr.2
      && List.isSuffixOf (pystr ".py") ((pr.1.getLast?).getD []))).symm
  have hexi : ∀ (l : List Entry) (parts : List (List Char)),
      existsPathE l parts = (l.map structView).any (fun pr => pr.1 == parts) :=
    fun l parts => (any_structView l (fun pr => pr.1 == parts)).symm
  rw [hasPyCodeE, hasPyCodeE, hany, hany, hexi, hexi, h]

/-- C2 counterexample: `validate_container_structure` mutates the artifact
it checks.  On the container `c2Container` (one unformatted Python file
`src/app.py`), with the modelled black formatter and `ast` parser, the
returned container differs from the input: the file's content has been
rewritten in place (`format_python_files`, source lines 66-68, writes the
formatted text back). -/
theorem C2_mutates_artifact_counterexample :
    (validate_container_structure blackFmtModel astParseModel c2Container).2
      ≠ c2Container := by
  decide

/-- C2 amended: `validate_container_structure` is not pure — it rewrites
each non-skipped Python file's content with the formatter's output — but the
mutation is content-only (the paths and kinds of the entries are preserved),
and, because black is idempotent, the checker is stable: invoking it again
on the mutated artifact returns the identical finding sequence and leaves
the artifact unchanged. -/
theorem C2_idempotent_after_mutation
    (fmt : List Char → Except (List Char) (List Char))
    (parse : List Char → Except (List Char) (List PyNode)) (c : Container)
    (hIdem : ∀ s t, fmt s = .ok t → fmt t = .ok t) :
    ((validate_container_structure fmt parse c).2).entries.map structView
        = c.entries.map structView
    ∧ validate_container_structure fmt parse
        ((validate_container_structure fmt parse c).2)
      = validate_container_structure fmt parse c := by
  by_cases hexc : c.cname ∈ EXCLUDED_DIRS
  · constructor <;> simp [validate_container_structure, hexc]
  · cases hpc : hasPyCodeE c.entries with
    | false =>
      constructor <;>
        simp [validate_container_structure, hexc, hpc, container_eta]
    | true =>
      have hA2 : hasPyCodeE ((format_python_files_go fmt c.cname c.entries).2)
          = true := by
        rw [hasPyCodeE_structView _ c.entries
          (format_go_structView fmt c.cname c.entries)]
        exact hpc
      have hfix := format_go_fixpoint fmt c.cname c.entries hIdem
      constructor
      · simpa [validate_container_structure, hexc, hpc] using
          format_go_structView fmt c.cname c.entries
      · simp [validate_container_structure, hexc, hpc, hA2, hfix,
          container_eta]

/-- Witness for C2 at a concrete container with an (idempotent) identity
formatter. -/
theorem C2_idempotent_after_mutation_witness :
    ((validate_container_structure (fun s => .ok s) astParseModel
        c2Container).2).entries.map structView
        = c2Container.entries.map structView
    ∧ validate_container_structure (fun s => .ok s) astParseModel
        ((validate_container_structure (fun s => .ok s) astParseModel
          c2Container).2)
      = validate_container_structure (fun s => .ok s) astParseModel
          c2Container :=
  C2_idempotent_after_mutation (fun s => .ok s) astParseModel c2Container
    (fun _ _ h => by cases h; rfl)

end Guardrails
